import Mathlib

/-!
Shallow embedding of `src/app.py` (lead-generation app for planning applications):
the scoring function `score_lead`, the fetcher `scrape_london_datahub`, and the
filter/sort pipeline in `main`.

Python strings are modelled as Lean `String`; Python's substring test
`needle in haystack` is `strContains haystack needle`; `str.lower()` is
`lowerStr` (the inputs involved are ASCII).
-/

namespace LeadGen

/-- `startsWithChars needle hay`: `needle` is a prefix of `hay` (character lists). -/
def startsWithChars : List Char → List Char → Bool
  | [], _ => true
  | _ :: _, [] => false
  | a :: as, b :: bs => a == b && startsWithChars as bs

/-- `containsChars needle hay`: `needle` occurs contiguously inside `hay`.
Model of Python's `needle in hay` for strings. -/
def containsChars (needle : List Char) : List Char → Bool
  | [] => startsWithChars needle []
  | b :: bs => startsWithChars needle (b :: bs) || containsChars needle bs

/-- Python `needle in haystack` on strings. -/
def strContains (haystack needle : String) : Bool :=
  containsChars needle.data haystack.data

/-- Python `str.lower()` (ASCII inputs); written over the character list so the
kernel can evaluate it. -/
def lowerStr (s : String) : String := String.mk (s.data.map Char.toLower)

/-- A raw application record as `score_lead` receives it: a dictionary that may
carry any of the field names the code probes with `.get` (src/app.py lines 49-51). -/
structure Application where
  applicant : Option String := none
  applicant_name : Option String := none
  description : Option String := none
  proposal : Option String := none
  status : Option String := none
  decision : Option String := none
deriving DecidableEq, Repr

/-- src/app.py line 56. -/
def company_keywords : List String :=
  ["ltd", "limited", "architects", "developments", "properties", "consulting", "design"]

/-- src/app.py line 62. -/
def commercial_keywords : List String :=
  ["retail", "commercial", "mixed use", "office", "shop", "restaurant", "cafe"]

/-- src/app.py line 85. -/
def extension_keywords : List String :=
  ["extension", "basement", "loft conversion", "rear extension", "side extension"]

/-- src/app.py line 91 (trailing spaces are in the source). -/
def private_keywords : List String :=
  ["mr ", "mrs ", "miss ", "ms ", "dr "]

/-- Lowercased applicant text: `application.get('applicant', application.get('applicant_name', '')).lower()`. -/
def applicantField (application : Application) : String :=
  lowerStr (application.applicant.getD (application.applicant_name.getD ""))

/-- Lowercased description text: `application.get('description', application.get('proposal', '')).lower()`. -/
def descriptionField (application : Application) : String :=
  lowerStr (application.description.getD (application.proposal.getD ""))

/-- Lowercased status text: `application.get('status', application.get('decision', '')).lower()`. -/
def statusField (application : Application) : String :=
  lowerStr (application.status.getD (application.decision.getD ""))

/-- Rule 1 condition (src/app.py line 57). -/
def companyHit (applicant : String) : Bool :=
  company_keywords.any fun keyword => strContains applicant keyword

/-- Rule 2 condition (src/app.py line 63). -/
def commercialHit (description : String) : Bool :=
  commercial_keywords.any fun keyword => strContains description keyword

/-- Rule 3 condition (src/app.py line 68). -/
def refusedHit (status : String) : Bool :=
  strContains status "refused" || strContains status "reject"

/-- Rule 4 condition (src/app.py line 73). -/
def priorApprovalHit (description : String) : Bool :=
  strContains description "prior approval" || strContains description "change of use"

/-- Rule 5 condition (src/app.py line 80). -/
def hmoHit (description : String) : Bool :=
  strContains description "hmo" || strContains description "house in multiple occupation" ||
    strContains description "house of multiple occupation"

/-- Rule 6 condition (src/app.py line 86). -/
def extensionHit (description : String) : Bool :=
  extension_keywords.any fun keyword => strContains description keyword

/-- Rule 7 condition (src/app.py line 92). -/
def homeownerHit (applicant : String) : Bool :=
  private_keywords.any fun keyword => strContains applicant keyword

/-- One `if cond: score += delta; reasons.append(reason)` step of `score_lead`. -/
def applyRule (hit : Bool) (delta : Int) (reason : String) (acc : Int × List String) :
    Int × List String :=
  if hit then (acc.1 + delta, acc.2 ++ [reason]) else acc

/-- Priority label from the score (src/app.py lines 97-102). -/
def priority_label (score : Int) : String :=
  if score ≥ 5 then "🟢 A - HIGH PRIORITY"
  else if score ≥ 2 then "🟡 B - MEDIUM"
  else "🔴 C - LOW"

/-- `score_lead` (src/app.py lines 40-104): sequentially applies the seven rules to
the accumulator `(score, reasons)` starting from `(0, [])`, then attaches the
priority label. Returns `(score, priority, reasons)`. -/
def score_lead (application : Application) : Int × String × List String :=
  let applicant := applicantField application
  let description := descriptionField application
  let status := statusField application
  let acc := ((0 : Int), ([] : List String))
  let acc := applyRule (companyHit applicant) 3 "✓ Company applicant" acc
  let acc := applyRule (commercialHit description) 3 "✓ Commercial/Mixed-use project" acc
  let acc := applyRule (refusedHit status) 2 "✓ Recently refused (appeal opportunity)" acc
  let acc := applyRule (priorApprovalHit description) 1 "✓ Prior Approval/Change of Use" acc
  let acc := applyRule (hmoHit description) (-5) "✗ HMO (excluded)" acc
  let acc := applyRule (extensionHit description) (-5) "✗ Extension/Loft (excluded)" acc
  let acc := applyRule (homeownerHit applicant) (-2) "⚠ Private homeowner" acc
  (acc.1, priority_label acc.1, acc.2)

/-- Rule 1 contribution to the score. -/
def companyContribution (application : Application) : Int :=
  if companyHit (applicantField application) then 3 else 0

/-- Rule 2 contribution to the score. -/
def commercialContribution (application : Application) : Int :=
  if commercialHit (descriptionField application) then 3 else 0

/-- Rule 3 contribution to the score. -/
def refusedContribution (application : Application) : Int :=
  if refusedHit (statusField application) then 2 else 0

/-- Rule 4 contribution to the score. -/
def priorApprovalContribution (application : Application) : Int :=
  if priorApprovalHit (descriptionField application) then 1 else 0

/-- Rule 5 contribution to the score. -/
def hmoContribution (application : Application) : Int :=
  if hmoHit (descriptionField application) then -5 else 0

/-- Rule 6 contribution to the score. -/
def extensionContribution (application : Application) : Int :=
  if extensionHit (descriptionField application) then -5 else 0

/-- Rule 7 contribution to the score. -/
def homeownerContribution (application : Application) : Int :=
  if homeownerHit (applicantField application) then -2 else 0

/-- Priority tiers, as the spec's abstraction of the three label strings. -/
inductive Tier
  | HIGH
  | MEDIUM
  | LOW
deriving DecidableEq, Repr

/-- The tier denoted by a priority label string. -/
def tierOfLabel (label : String) : Tier :=
  if label = "🟢 A - HIGH PRIORITY" then Tier.HIGH
  else if label = "🟡 B - MEDIUM" then Tier.MEDIUM
  else Tier.LOW

/-- A normalized application dictionary as built by `scrape_london_datahub`
(src/app.py lines 131-140); every field is present. -/
structure NormalizedApp where
  council : String
  reference : String
  address : String
  description : String
  applicant : String
  status : String
  date : String
  link : String
deriving DecidableEq, Repr

/-- The dictionary view of a normalized app that `score_lead` receives in `main`
(line 253): the keys `applicant`, `description`, `status` are present. -/
def toApplication (app : NormalizedApp) : Application :=
  { applicant := some app.applicant
    description := some app.description
    status := some app.status }

/-- One element of `scored_leads` (src/app.py lines 262-267): the app dictionary
extended with `score`, `priority` and the pipe-joined `reasons`. -/
structure Lead where
  app : NormalizedApp
  score : Int
  priority : String
  reasons : String
deriving DecidableEq, Repr

/-- Builds the lead dictionary appended at src/app.py lines 262-267. -/
def mkLead (app : NormalizedApp) : Lead :=
  let r := score_lead (toApplication app)
  { app := app, score := r.1, priority := r.2.1, reasons := String.intercalate " | " r.2.2 }

/-- The user-tunable filter settings read from the sidebar (src/app.py lines 189-202). -/
structure SearchConfig where
  min_score : Int
  refused_only : Bool
deriving DecidableEq, Repr

/-- The scoring-and-filtering loop of `main` (src/app.py lines 251-267): score each
app, `continue` when `score < min_score`, `continue` when `refused_only` and
`'refused' not in app['status'].lower()`, otherwise append the lead. -/
def scored_leads (cfg : SearchConfig) : List NormalizedApp → List Lead
  | [] => []
  | app :: rest =>
      let r := score_lead (toApplication app)
      if r.1 < cfg.min_score then scored_leads cfg rest
      else if cfg.refused_only && !strContains (lowerStr app.status) "refused" then
        scored_leads cfg rest
      else mkLead app :: scored_leads cfg rest

/-- The filter predicate as the spec words it: keep a lead iff its score is at
least `min_score` and, when `refused_only` is set, its status contains
"refused" case-insensitively. -/
def keepSpec (cfg : SearchConfig) (app : NormalizedApp) : Bool :=
  decide (cfg.min_score ≤ (score_lead (toApplication app)).1) &&
    (!cfg.refused_only || strContains (lowerStr app.status) "refused")

/-- Sort order of `scored_leads.sort(key=lambda x: x['score'], reverse=True)`:
`a` may come before `b` iff `a`'s score is at least `b`'s. -/
def leadGE (a b : Lead) : Prop := b.score ≤ a.score

instance : DecidableRel leadGE := fun a b => Int.decLe b.score a.score

instance : IsTotal Lead leadGE := ⟨fun a b => le_total b.score a.score⟩

instance : IsTrans Lead leadGE := ⟨fun _ _ _ h1 h2 => le_trans h2 h1⟩

/-- The sort at src/app.py line 270. Python's `list.sort` is stable, so it is
modelled by stable insertion sort with the descending-score order. -/
def sortLeads (leads : List Lead) : List Lead :=
  List.insertionSort leadGE leads

/-- Score, filter and rank: src/app.py lines 251-270. -/
def pipeline (cfg : SearchConfig) (apps : List NormalizedApp) : List Lead :=
  sortLeads (scored_leads cfg apps)

/-- One element of the response's `data` array (src/app.py lines 130-140):
a dictionary that may carry any of the probed keys. -/
structure RawApp where
  planning_application_reference : Option String := none
  site_address : Option String := none
  development_description : Option String := none
  applicant_name : Option String := none
  status_description : Option String := none
  date_received : Option String := none
deriving DecidableEq, Repr

/-- The record built for each raw app (src/app.py lines 131-140). -/
def normalizeRaw (app : RawApp) : NormalizedApp :=
  { council := "London Datahub"
    reference := app.planning_application_reference.getD "N/A"
    address := app.site_address.getD "N/A"
    description := app.development_description.getD "N/A"
    applicant := app.applicant_name.getD "N/A"
    status := app.status_description.getD "N/A"
    date := app.date_received.getD "N/A"
    link := "https://planningdata.london.gov.uk/planning-application/" ++
      app.planning_application_reference.getD "" }

/-- A parsed JSON response body; `data?` is the top-level `data` field when present. -/
structure JsonTop where
  data? : Option (List RawApp) := none
deriving DecidableEq, Repr

/-- What the network delivers for the single `requests.get` call in
`scrape_london_datahub` (src/app.py line 125).

* `transportError excMsg` — `requests.get` itself raises (connection failure or
  timeout); `excMsg` is the library's exception text.
* `httpResponse status statusExcMsg body jsonExcMsg` — a response with the given
  HTTP status arrives. `statusExcMsg` is the text of the exception
  `raise_for_status` raises when the status is 4xx/5xx; `body` is `none` when
  the body is not valid JSON, in which case `.json()` raises with text
  `jsonExcMsg`. -/
inductive FetchOutcome
  | transportError (excMsg : String)
  | httpResponse (status : Nat) (statusExcMsg : String) (body : Option JsonTop)
      (jsonExcMsg : String)
deriving DecidableEq, Repr

/-- `scrape_london_datahub`, response handling (src/app.py lines 124-146): the
`try` block raises on transport failure, on a 4xx/5xx status
(`raise_for_status`), or on a non-JSON body (`.json()`); the `except` catches
any exception, shows `st.error(f"Error scraping London Datahub: ...")` and
returns `[]`. A JSON body without a `data` field falls to `data.get('data', [])`
inside the `try`, yielding `[]` with no error shown. Returns the application
list and the diagnostic `st.error` message, if any was shown. -/
def scrape_london_datahub (outcome : FetchOutcome) : List NormalizedApp × Option String :=
  match outcome with
  | .transportError excMsg =>
      ([], some ("Error scraping London Datahub: " ++ excMsg))
  | .httpResponse status statusExcMsg body jsonExcMsg =>
      if 400 ≤ status ∧ status < 600 then
        ([], some ("Error scraping London Datahub: " ++ statusExcMsg))
      else
        match body with
        | none => ([], some ("Error scraping London Datahub: " ++ jsonExcMsg))
        | some top => ((top.data?.getD []).map normalizeRaw, none)

/-- The outcome is one of the failure cases the `try` block can raise on:
transport error/timeout, 4xx/5xx status, or non-JSON body. -/
def isFetchFailure : FetchOutcome → Bool
  | .transportError _ => true
  | .httpResponse status _ body _ => decide (400 ≤ status ∧ status < 600) || body.isNone

/-- The outcome is a successful, valid-JSON response whose top-level object has
no `data` field. -/
def missingDataField : FetchOutcome → Bool
  | .transportError _ => false
  | .httpResponse status _ body _ =>
      !decide (400 ≤ status ∧ status < 600) &&
        (match body with
         | some top => top.data?.isNone
         | none => false)

/-- Civil date from a count of days since 1970-01-01 (proleptic Gregorian
calendar), returning `(year, month, day)`. All intermediate divisions act on
non-negative operands, so truncated `Int` division coincides with floor
division. -/
def civilFromDays (z0 : Int) : Int × Int × Int :=
  let z := z0 + 719468
  let era := (if 0 ≤ z then z else z - 146096) / 146097
  let doe := z - era * 146097
  let yoe := (doe - doe / 1460 + doe / 36524 - doe / 146096) / 365
  let y := yoe + era * 400
  let doy := doe - (365 * yoe + yoe / 4 - yoe / 100)
  let mp := (5 * doy + 2) / 153
  let d := doy - (153 * mp + 2) / 5 + 1
  let m := mp + (if mp < 10 then 3 else (-9))
  (y + (if m ≤ 2 then 1 else 0), m, d)

/-- Left-pads the decimal representation of a non-negative integer with zeros
to `width` characters. -/
def padNum (width : Nat) (n : Int) : String :=
  let s := toString n.toNat
  let pad := width - s.length
  String.mk (List.replicate pad '0') ++ s

/-- `strftime("%Y-%m-%d")` applied to the date `z` days after 1970-01-01. -/
def formatYMD (z : Int) : String :=
  let c := civilFromDays z
  padNum 4 c.1 ++ "-" ++ padNum 2 c.2.1 ++ "-" ++ padNum 2 c.2.2

/-- The one HTTP GET request `scrape_london_datahub` issues: URL, the three
query parameters built at src/app.py lines 118-122, and the `timeout=30`
keyword of line 125 (seconds). -/
structure DatahubRequest where
  url : String
  date_received_start : String
  date_received_end : String
  page_size : Nat
  timeoutSeconds : Nat
deriving DecidableEq, Repr

/-- Request construction in `scrape_london_datahub` (src/app.py lines 114-125):
`end_date = datetime.now()`, `start_date = end_date - timedelta(days=days_back)`,
both rendered with `strftime("%Y-%m-%d")`, `page_size` fixed at 100, one
`requests.get(url, params, timeout=30)`. `today` is `datetime.now()`'s date as
days since 1970-01-01; subtracting `timedelta(days=days_back)` shifts that date
by exactly `days_back` days. The function body contains no loop around the GET,
so the issued-request list is a singleton. -/
def londonDatahubRequests (today : Int) (days_back : Int) : List DatahubRequest :=
  [{ url := "https://planningdata.london.gov.uk/api-guest/applications"
     date_received_start := formatYMD (today - days_back)
     date_received_end := formatYMD today
     page_size := 100
     timeoutSeconds := 30 }]

/-- Sample record: the Pending lead of the spec's `refusedOnly` example. -/
def pendingApp : NormalizedApp :=
  { council := "London Datahub", reference := "P1", address := "1 High St"
    description := "new shopfront", applicant := "Acme Ltd", status := "Pending"
    date := "2026-10-01", link := "" }

/-- Sample record: the "Refused - appeal lodged" lead of the spec's `refusedOnly` example. -/
def refusedApp : NormalizedApp :=
  { council := "London Datahub", reference := "P2", address := "3 High St"
    description := "new shopfront", applicant := "Acme Ltd"
    status := "Refused - appeal lodged", date := "2026-10-01", link := "" }

/-- Sample record: the spec's end-to-end Smith Developments scenario. -/
def smithRecord : Application :=
  { applicant := some "Smith Developments Ltd"
    description := some "proposed mixed use retail and office scheme"
    status := some "Refused" }

/-- Sample record with a company applicant. -/
def acmeRecord : Application :=
  { applicant := some "ACME LTD" }

/-- Sample record whose status says "Rejected" but not "refused". -/
def rejectedApp : NormalizedApp :=
  { council := "London Datahub", reference := "R1", address := "2 Low St"
    description := "change of use to cafe", applicant := "Beta Ltd"
    status := "Rejected", date := "2026-10-02", link := "" }

lemma applyRule_fst (hit : Bool) (delta : Int) (reason : String) (acc : Int × List String) :
    (applyRule hit delta reason acc).1 = acc.1 + (if hit then delta else 0) := by
  cases hit <;> simp [applyRule]

lemma applyRule_snd (hit : Bool) (delta : Int) (reason : String) (acc : Int × List String) :
    (applyRule hit delta reason acc).2 = acc.2 ++ (if hit then [reason] else []) := by
  cases hit <;> simp [applyRule]

/-- The score component of `score_lead` is the signed sum of the seven rule
contributions. -/
lemma score_lead_fst_eq_sum (application : Application) :
    (score_lead application).1 =
      companyContribution application + commercialContribution application +
        refusedContribution application + priorApprovalContribution application +
        hmoContribution application + extensionContribution application +
        homeownerContribution application := by
  simp only [score_lead, applyRule_fst, companyContribution, commercialContribution,
    refusedContribution, priorApprovalContribution, hmoContribution, extensionContribution,
    homeownerContribution]
  split_ifs <;> omega

/-- The reasons component of `score_lead`: one optional entry per rule, in rule
order. -/
lemma score_lead_reasons_shape (application : Application) :
    (score_lead application).2.2 =
      (if companyHit (applicantField application) then ["✓ Company applicant"] else []) ++
        ((if commercialHit (descriptionField application) then
            ["✓ Commercial/Mixed-use project"] else []) ++
          ((if refusedHit (statusField application) then
              ["✓ Recently refused (appeal opportunity)"] else []) ++
            ((if priorApprovalHit (descriptionField application) then
                ["✓ Prior Approval/Change of Use"] else []) ++
              ((if hmoHit (descriptionField application) then ["✗ HMO (excluded)"] else []) ++
                ((if extensionHit (descriptionField application) then
                    ["✗ Extension/Loft (excluded)"] else []) ++
                  (if homeownerHit (applicantField application) then
                    ["⚠ Private homeowner"] else [])))))) := by
  simp only [score_lead, applyRule_snd]
  simp [List.append_assoc]

lemma optSingleton_append_sublist {α : Type} (b : Bool) (x : α) {l m : List α}
    (h : List.Sublist l m) : List.Sublist ((if b then [x] else []) ++ l) (x :: m) := by
  cases b
  · simpa using h.cons x
  · simpa using h.cons₂ x

/-- The lead list built by the filtering loop equals the input filtered by the
spec's keep-predicate, mapped to leads. -/
lemma scored_leads_eq_filter_map (cfg : SearchConfig) :
    ∀ apps : List NormalizedApp,
      scored_leads cfg apps = (apps.filter (keepSpec cfg)).map mkLead
  | [] => rfl
  | app :: rest => by
      have ih := scored_leads_eq_filter_map cfg rest
      by_cases h1 : (score_lead (toApplication app)).1 < cfg.min_score
      · have hk : keepSpec cfg app = false := by
          simp only [keepSpec, Bool.and_eq_false_iff, decide_eq_false_iff_not]
          left
          omega
        simp [scored_leads, h1, List.filter_cons, hk, ih]
      · by_cases h2 : cfg.refused_only && !strContains (lowerStr app.status) "refused"
        · have hk : keepSpec cfg app = false := by
            simp only [Bool.and_eq_true, Bool.not_eq_true'] at h2
            simp [keepSpec, h2.1, h2.2]
          simp [scored_leads, h1, h2, List.filter_cons, hk, ih]
        · have hsc : cfg.min_score ≤ (score_lead (toApplication app)).1 := by omega
          have hk : keepSpec cfg app = true := by
            rcases Bool.eq_false_or_eq_true (strContains (lowerStr app.status) "refused")
              with hs | hs
            · simp [keepSpec, hs, hsc]
            · rcases Bool.eq_false_or_eq_true cfg.refused_only with hr | hr
              · exact absurd (by simp [hr, hs]) h2
              · simp [keepSpec, hr, hsc]
          simp [scored_leads, h1, h2, List.filter_cons, hk, ih]

/-- Inserting a lead preserves the exact subsequence of any fixed score class. -/
lemma filter_orderedInsert_score (x : Lead) (c : Int) :
    ∀ l : List Lead,
      (List.orderedInsert leadGE x l).filter (fun a => a.score == c) =
        ((x :: l).filter (fun a => a.score == c))
  | [] => rfl
  | y :: ys => by
      have ih := filter_orderedInsert_score x c ys
      by_cases h : leadGE x y
      · rw [List.orderedInsert, if_pos h]
      · rw [List.orderedInsert, if_neg h]
        by_cases hy : y.score == c
        · by_cases hx : x.score == c
          · exact absurd (le_of_eq ((beq_iff_eq.mp hy).trans (beq_iff_eq.mp hx).symm)) h
          · simp [List.filter_cons, hy, hx, ih]
        · simp [List.filter_cons, hy, ih]

/-- Stable sorting preserves the exact subsequence of any fixed score class. -/
lemma filter_sortLeads_score (c : Int) :
    ∀ l : List Lead,
      (sortLeads l).filter (fun a => a.score == c) = l.filter (fun a => a.score == c)
  | [] => rfl
  | x :: xs => by
      have ih := filter_sortLeads_score c xs
      rw [sortLeads, List.insertionSort, filter_orderedInsert_score]
      rw [List.filter_cons, List.filter_cons]
      rw [show (List.insertionSort leadGE xs).filter (fun a => a.score == c) =
        xs.filter (fun a => a.score == c) from ih]

/-- C1: for every application record, the score returned by `score_lead` is the
signed sum of the seven independently evaluated rule contributions (+3 company
applicant, +3 commercial keywords, +2 refused/reject status, +1 prior
approval/change of use, -5 HMO, -5 extension/basement, -2 private-homeowner
honorific); every rule is evaluated on every record and no rule suppresses or
short-circuits another. -/
theorem C1_score_is_signed_rule_sum (application : Application) :
    (score_lead application).1 =
      companyContribution application + commercialContribution application +
        refusedContribution application + priorApprovalContribution application +
        hmoContribution application + extensionContribution application +
        homeownerContribution application :=
  score_lead_fst_eq_sum application

/-- C2: the priority tier is a pure function of the score with inclusive lower
bounds: score ≥ 5 yields HIGH, 2 ≤ score < 5 yields MEDIUM, score < 2 yields
LOW; in particular score 5 gives HIGH, 4 gives MEDIUM, 2 gives MEDIUM, 1 gives
LOW and -5 gives LOW. -/
theorem C2_tier_is_pure_function_of_score :
    (∀ application : Application,
        (score_lead application).2.1 = priority_label (score_lead application).1)
  ∧ (∀ s : Int,
        (5 ≤ s → tierOfLabel (priority_label s) = Tier.HIGH)
      ∧ (2 ≤ s ∧ s < 5 → tierOfLabel (priority_label s) = Tier.MEDIUM)
      ∧ (s < 2 → tierOfLabel (priority_label s) = Tier.LOW))
  ∧ tierOfLabel (priority_label 5) = Tier.HIGH
  ∧ tierOfLabel (priority_label 4) = Tier.MEDIUM
  ∧ tierOfLabel (priority_label 2) = Tier.MEDIUM
  ∧ tierOfLabel (priority_label 1) = Tier.LOW
  ∧ tierOfLabel (priority_label (-5)) = Tier.LOW := by
  refine ⟨fun application => rfl, fun s => ⟨?_, ?_, ?_⟩,
    by decide, by decide, by decide, by decide, by decide⟩
  · intro h
    simp only [priority_label]
    rw [if_pos h]
    decide
  · intro h
    simp only [priority_label]
    rw [if_neg (by omega : ¬s ≥ 5), if_pos (by omega : s ≥ 2)]
    decide
  · intro h
    simp only [priority_label]
    rw [if_neg (by omega : ¬s ≥ 5), if_neg (by omega : ¬s ≥ 2)]
    decide

/-- Witness for C2: the band implications instantiated at scores 5, 3 and 0. -/
theorem C2_tier_is_pure_function_of_score_witness :
    tierOfLabel (priority_label 5) = Tier.HIGH
  ∧ tierOfLabel (priority_label 3) = Tier.MEDIUM
  ∧ tierOfLabel (priority_label 0) = Tier.LOW :=
  ⟨(C2_tier_is_pure_function_of_score.2.1 5).1 (by decide),
   (C2_tier_is_pure_function_of_score.2.1 3).2.1 (by decide),
   (C2_tier_is_pure_function_of_score.2.1 0).2.2 (by decide)⟩

/-- C3: the filter step keeps exactly the leads whose score is at least
`min_score` and, when `refused_only` is set, additionally drops every lead whose
status does not contain "refused" case-insensitively; a lead with status
"Pending" is excluded while one with status "Refused - appeal lodged" is
included. -/
theorem C3_filter_step (cfg : SearchConfig) (apps : List NormalizedApp) :
    scored_leads cfg apps = (apps.filter (keepSpec cfg)).map mkLead
  ∧ strContains (lowerStr "Pending") "refused" = false
  ∧ strContains (lowerStr "Refused - appeal lodged") "refused" = true
  ∧ scored_leads { min_score := 2, refused_only := true } [pendingApp, refusedApp] =
      [mkLead refusedApp] :=
  ⟨scored_leads_eq_filter_map cfg apps, by decide, by decide, by decide⟩

/-- C4: the final lead sequence is the filter output sorted by score descending
with a stable sort: it is a permutation of the filter output, pairwise
descending in score, and every equal-score class keeps exactly its pre-sort
relative order (so no secondary tie-break key is applied). -/
theorem C4_sort_is_stable_descending (cfg : SearchConfig) (apps : List NormalizedApp) :
    pipeline cfg apps = sortLeads (scored_leads cfg apps)
  ∧ List.Sorted leadGE (pipeline cfg apps)
  ∧ (pipeline cfg apps).Perm (scored_leads cfg apps)
  ∧ ∀ c : Int, (pipeline cfg apps).filter (fun a => a.score == c) =
      (scored_leads cfg apps).filter (fun a => a.score == c) :=
  ⟨rfl, List.sorted_insertionSort leadGE (scored_leads cfg apps),
    List.perm_insertionSort leadGE (scored_leads cfg apps),
    fun c => filter_sortLeads_score c (scored_leads cfg apps)⟩

/-- C5 counterexample: a 200 response whose valid JSON body has no top-level
`data` field makes the fetch return an empty sequence with NO diagnostic
(`data.get('data', [])` succeeds inside the `try`, so `st.error` never runs),
contradicting the claim that such a response surfaces a non-empty diagnostic. -/
theorem C5_counterexample :
    scrape_london_datahub (FetchOutcome.httpResponse 200 "HTTPError" (some ⟨none⟩) "JSONError") =
      ([], none) := rfl

/-- C5 amended: a transport error or timeout, a 4xx/5xx status, or a non-JSON
body makes the fetch return an empty sequence plus a non-empty diagnostic; a
well-formed response missing the top-level `data` field instead returns an
empty sequence with no diagnostic. The fetch is a total function of the
outcome, so no fault escapes the pipeline boundary. -/
theorem C5_fetch_failure_handling (outcome : FetchOutcome) :
    (isFetchFailure outcome = true →
        (scrape_london_datahub outcome).1 = [] ∧
          ∃ msg, (scrape_london_datahub outcome).2 = some msg ∧ msg ≠ "")
  ∧ (missingDataField outcome = true → scrape_london_datahub outcome = ([], none)) := by
  have hne : ∀ m : String, "Error scraping London Datahub: " ++ m ≠ "" := by
    intro m h
    have h1 : ("Error scraping London Datahub: " ++ m).length = 0 := by rw [h]; rfl
    rw [String.length_append] at h1
    have h2 : 0 < ("Error scraping London Datahub: " : String).length := by decide
    omega
  constructor
  · intro h
    match outcome with
    | .transportError excMsg =>
        exact ⟨rfl, _, rfl, hne excMsg⟩
    | .httpResponse status statusExcMsg body jsonExcMsg =>
        simp only [isFetchFailure, Bool.or_eq_true, decide_eq_true_eq, Option.isNone_iff_eq_none]
          at h
        by_cases hs : 400 ≤ status ∧ status < 600
        · exact ⟨by simp [scrape_london_datahub, hs], _,
            by simp [scrape_london_datahub, hs], hne statusExcMsg⟩
        · have hb : body = none := h.resolve_left hs
          subst hb
          exact ⟨by simp [scrape_london_datahub, hs], _,
            by simp [scrape_london_datahub, hs], hne jsonExcMsg⟩
  · intro h
    match outcome with
    | .httpResponse status statusExcMsg body jsonExcMsg =>
        simp only [missingDataField, Bool.and_eq_true, Bool.not_eq_true', decide_eq_false_iff_not]
          at h
        obtain ⟨hs, hb⟩ := h
        match body, hb with
        | some top, hb =>
            have hd : top.data? = none := Option.isNone_iff_eq_none.mp hb
            simp [scrape_london_datahub, hs, hd]

/-- Witness for C5: a concrete timeout outcome yields an empty list plus a
non-empty diagnostic, and a concrete missing-`data` response yields an empty
list silently. -/
theorem C5_fetch_failure_handling_witness :
    ((scrape_london_datahub (FetchOutcome.transportError "timed out")).1 = [] ∧
      ∃ msg, (scrape_london_datahub (FetchOutcome.transportError "timed out")).2 = some msg ∧
        msg ≠ "")
  ∧ scrape_london_datahub (FetchOutcome.httpResponse 204 "x" (some ⟨none⟩) "y") = ([], none) :=
  ⟨(C5_fetch_failure_handling (FetchOutcome.transportError "timed out")).1 (by decide),
   (C5_fetch_failure_handling (FetchOutcome.httpResponse 204 "x" (some ⟨none⟩) "y")).2 (by decide)⟩

/-- C6 counterexample: for the Smith Developments record, the reasons list the
code returns is not the claimed
["Company applicant", "Commercial project", "Refused (appeal opportunity)"]:
the code emits differently worded, decorated strings. -/
theorem C6_counterexample :
    (score_lead smithRecord).2.2 ≠
      ["Company applicant", "Commercial project", "Refused (appeal opportunity)"] := by
  decide

/-- C6 amended: for the Smith Developments record, `score_lead` returns score 8
(3 company + 3 commercial + 2 refused), the HIGH tier, and the reasons
["✓ Company applicant", "✓ Commercial/Mixed-use project",
"✓ Recently refused (appeal opportunity)"] in that order. -/
theorem C6_smith_scenario :
    (score_lead smithRecord).1 = 8
  ∧ tierOfLabel (score_lead smithRecord).2.1 = Tier.HIGH
  ∧ (score_lead smithRecord).2.2 =
      ["✓ Company applicant", "✓ Commercial/Mixed-use project",
        "✓ Recently refused (appeal opportunity)"] := by
  refine ⟨by decide, by decide, by decide⟩

/-- C7: whenever the lowercased applicant text contains "ltd", the
company-applicant rule fires and contributes exactly +3 — never more, even if
several company keywords match — and the total score is 3 plus the sum of the
other six rules' contributions, regardless of any other text in the record. -/
theorem C7_ltd_contributes_exactly_three (application : Application)
    (h : strContains (applicantField application) "ltd" = true) :
    companyContribution application = 3
  ∧ (score_lead application).1 =
      3 + (commercialContribution application + refusedContribution application +
        priorApprovalContribution application + hmoContribution application +
        extensionContribution application + homeownerContribution application) := by
  have hc : companyHit (applicantField application) = true := by
    simp only [companyHit, company_keywords, List.any_cons, Bool.or_eq_true]
    exact Or.inl h
  have h3 : companyContribution application = 3 := by
    simp [companyContribution, hc]
  refine ⟨h3, ?_⟩
  rw [score_lead_fst_eq_sum application, h3]
  ring

/-- Witness for C7: the "ACME LTD" record. -/
theorem C7_ltd_contributes_exactly_three_witness :
    companyContribution acmeRecord = 3
  ∧ (score_lead acmeRecord).1 =
      3 + (commercialContribution acmeRecord + refusedContribution acmeRecord +
        priorApprovalContribution acmeRecord + hmoContribution acmeRecord +
        extensionContribution acmeRecord + homeownerContribution acmeRecord) :=
  C7_ltd_contributes_exactly_three acmeRecord (by decide)

/-- C8: every fetch issues exactly one GET request, with a 30-second timeout,
query parameters `date_received_start` = now minus `days_back` days and
`date_received_end` = now — both formatted YYYY-MM-DD, checked concretely on
2026-10-12 minus 7 days — and `page_size` fixed at 100; the request list is a
singleton, so no pagination happens beyond this one request. -/
theorem C8_single_bounded_request (today days_back : Int) :
    (londonDatahubRequests today days_back).length = 1
  ∧ (∀ r ∈ londonDatahubRequests today days_back,
      r.url = "https://planningdata.london.gov.uk/api-guest/applications"
      ∧ r.date_received_start = formatYMD (today - days_back)
      ∧ r.date_received_end = formatYMD today
      ∧ r.page_size = 100
      ∧ r.timeoutSeconds = 30)
  ∧ formatYMD 20738 = "2026-10-12"
  ∧ formatYMD (20738 - 7) = "2026-10-05" := by
  refine ⟨rfl, ?_, by decide, by decide⟩
  intro r hr
  rw [londonDatahubRequests, List.mem_singleton] at hr
  subst hr
  exact ⟨rfl, rfl, rfl, rfl, rfl⟩

/-- Witness for C8: instantiated at today = 20738 (2026-10-12), a 7-day window,
and the one request in the list. -/
theorem C8_single_bounded_request_witness :
    (londonDatahubRequests 20738 7).length = 1
  ∧ ({ url := "https://planningdata.london.gov.uk/api-guest/applications"
       date_received_start := formatYMD (20738 - 7)
       date_received_end := formatYMD 20738
       page_size := 100
       timeoutSeconds := 30 } : DatahubRequest).page_size = 100
  ∧ formatYMD (20738 - 7) = "2026-10-05" := by
  refine ⟨(C8_single_bounded_request 20738 7).1, ?_,
    (C8_single_bounded_request 20738 7).2.2.2⟩
  exact ((C8_single_bounded_request 20738 7).2.1 _ (List.mem_singleton.mpr rfl)).2.2.2.1

/-- C9: for every input record the score lies in [-12, 9], and the reasons list
is a subsequence of the seven rule strings in rule order — hence it has at most
7 entries and at most one entry per rule. -/
theorem C9_score_bounds_and_reason_order (application : Application) :
    (-12 ≤ (score_lead application).1 ∧ (score_lead application).1 ≤ 9)
  ∧ List.Sublist (score_lead application).2.2
      ["✓ Company applicant", "✓ Commercial/Mixed-use project",
        "✓ Recently refused (appeal opportunity)", "✓ Prior Approval/Change of Use",
        "✗ HMO (excluded)", "✗ Extension/Loft (excluded)", "⚠ Private homeowner"]
  ∧ (score_lead application).2.2.length ≤ 7 := by
  have hsub : List.Sublist (score_lead application).2.2
      ["✓ Company applicant", "✓ Commercial/Mixed-use project",
        "✓ Recently refused (appeal opportunity)", "✓ Prior Approval/Change of Use",
        "✗ HMO (excluded)", "✗ Extension/Loft (excluded)", "⚠ Private homeowner"] := by
    rw [score_lead_reasons_shape]
    refine optSingleton_append_sublist _ _ (optSingleton_append_sublist _ _
      (optSingleton_append_sublist _ _ (optSingleton_append_sublist _ _
        (optSingleton_append_sublist _ _ (optSingleton_append_sublist _ _ ?_)))))
    cases homeownerHit (applicantField application) <;> simp
  refine ⟨?_, hsub, ?_⟩
  · rw [score_lead_fst_eq_sum application]
    simp only [companyContribution, commercialContribution, refusedContribution,
      priorApprovalContribution, hmoContribution, extensionContribution,
      homeownerContribution]
    constructor <;> split_ifs <;> omega
  · simpa using hsub.length_le

/-- C10: a record whose status contains "reject" but not "refused"
(case-insensitively) earns the +2 refusal contribution from the scorer, yet
with `refused_only` set the pipeline filter excludes it, because the filter
tests only for the substring "refused". -/
theorem C10_reject_scored_but_filtered_out (app : NormalizedApp) (cfg : SearchConfig)
    (hro : cfg.refused_only = true)
    (hrej : strContains (lowerStr app.status) "reject" = true)
    (href : strContains (lowerStr app.status) "refused" = false) :
    refusedContribution (toApplication app) = 2 ∧ scored_leads cfg [app] = [] := by
  constructor
  · have hst : statusField (toApplication app) = lowerStr app.status := rfl
    simp [refusedContribution, refusedHit, hst, hrej]
  · by_cases hm : (score_lead (toApplication app)).1 < cfg.min_score <;>
      simp [scored_leads, hm, hro, href]

/-- Witness for C10: the "Rejected" record with `refused_only` on. -/
theorem C10_reject_scored_but_filtered_out_witness :
    refusedContribution (toApplication rejectedApp) = 2
  ∧ scored_leads { min_score := 0, refused_only := true } [rejectedApp] = [] :=
  C10_reject_scored_but_filtered_out rejectedApp { min_score := 0, refused_only := true }
    rfl (by decide) (by decide)

end LeadGen
